import Mathlib

/-!
Shallow embedding of the authentication core of the zomato-telegram-bot
repository (Go): the JWT manager (pkg/jwt), the bcrypt wrapper
(pkg/crypto/password.go), the user repository (postgres), the auth
use case (internal/usecase, AuthUsecase), the auth HTTP handler and the
auth middleware (internal/delivery/http).

Modelling conventions:
- UUIDs are modelled as `Nat`; times are Unix seconds as `Int`.
- Go's zero string "" stands for an absent value (e.g. a NULL
  `totp_secret` column is scanned into the empty string, exactly as the
  postgres repository does).
- External cryptographic dependencies (bcrypt, HMAC, the pquerna/otp
  TOTP library) are not part of this repository; they are modelled as
  function parameters gathered in `Env`, so every theorem quantifies
  over their behaviour unless a hypothesis pins the part of their
  contract a claim needs.
- Errors are `Except String`, carrying the exact `errors.New` message
  strings of the Go code, since callers distinguish errors only by
  message / HTTP status.
-/

namespace ZomatoBot

/-- JWT claims (pkg/jwt Claims struct): user_id, email, is_2fa,
temp_auth, plus the registered claims set by the managers
(exp, iat, nbf, iss, sub). -/
structure Claims where
  userID : Nat
  email : String
  is2FA : Bool
  tempAuth : Bool
  expiresAt : Int
  issuedAt : Int
  notBefore : Int
  issuer : String
  subject : String
deriving DecidableEq

/-- A signed token: the algorithm named in its header, its claims and
its signature. The three-part base64 serialization is elided; the
structure carries exactly the information the code reads back. -/
structure Token where
  alg : String
  claims : Claims
  sig : String
deriving DecidableEq

/-- JWTManager (pkg/jwt): the signing secret and the configured session
expiry (seconds). -/
structure JWTManager where
  secretKey : String
  expiry : Int
deriving DecidableEq

/-- The symmetric MAC (HMAC) is external crypto: modelled as an
arbitrary function of the algorithm name, the key and the signed
claims. -/
def MacFn : Type := String → String → Claims → String

/-- Algorithm names that parse to the HMAC signing method family in the
golang-jwt library; the validation key function accepts exactly these. -/
def hmacAlgs : List String := ["HS256", "HS384", "HS512"]

/-- JWTManager.GenerateToken: full session token, signed HS256,
expiry = now + configured expiry, iat = nbf = now,
issuer "telegram-bot-api", subject = the user id rendered as string.
temp_auth is the zero value false. -/
def generateToken (mac : MacFn) (j : JWTManager) (now : Int)
    (userID : Nat) (email : String) (is2FA : Bool) : Token :=
  let claims : Claims :=
    { userID := userID, email := email, is2FA := is2FA, tempAuth := false
      expiresAt := now + j.expiry, issuedAt := now, notBefore := now
      issuer := "telegram-bot-api", subject := toString userID }
  { alg := "HS256", claims := claims, sig := mac "HS256" j.secretKey claims }

/-- JWTManager.GenerateTempToken: temporary pre-2FA token, signed
HS256, temp_auth = true, expiry = now + 15 minutes (a constant in the
code, not read from the manager's configured expiry). is_2fa is the
zero value false. -/
def generateTempToken (mac : MacFn) (j : JWTManager) (now : Int)
    (userID : Nat) (email : String) : Token :=
  let claims : Claims :=
    { userID := userID, email := email, is2FA := false, tempAuth := true
      expiresAt := now + 15 * 60, issuedAt := now, notBefore := now
      issuer := "telegram-bot-api", subject := toString userID }
  { alg := "HS256", claims := claims, sig := mac "HS256" j.secretKey claims }

/-- JWTManager.ValidateToken: the key function rejects non-HMAC signing
methods; the library then verifies the signature and the time claims
(valid iff now < exp and nbf ≤ now; iat is not validated by default). -/
def validateToken (mac : MacFn) (j : JWTManager) (now : Int)
    (tok : Token) : Except String Claims :=
  if hmacAlgs.contains tok.alg then
    if mac tok.alg j.secretKey tok.claims = tok.sig then
      if now < tok.claims.expiresAt then
        if tok.claims.notBefore ≤ now then
          .ok tok.claims
        else .error "token is not valid yet"
      else .error "token is expired"
    else .error "signature is invalid"
  else .error "unexpected signing method"

/-- JWTManager.ValidateTempToken: ValidateToken, then reject when the
temp_auth flag is not set. -/
def validateTempToken (mac : MacFn) (j : JWTManager) (now : Int)
    (tok : Token) : Except String Claims :=
  match validateToken mac j now tok with
  | .error e => .error e
  | .ok claims =>
    if claims.tempAuth then .ok claims
    else .error "not a temporary token"

/-- User entity (internal/domain/user.go). An absent totp_secret is the
empty string, as produced by the repository's NULL scan. -/
structure User where
  id : Nat
  email : String
  password : String
  fullName : String
  isActive : Bool
  is2faEnabled : Bool
  totpSecret : String
  createdAt : Int
  updatedAt : Int
deriving DecidableEq

/-- The users table, in insertion order. -/
abbrev Store : Type := List User

/-- UserRepository.GetByEmail (first row whose email matches; none
models the pgx.ErrNoRows "user not found" case). -/
def getByEmail (s : Store) (email : String) : Option User :=
  s.find? (fun u => u.email == email)

/-- UserRepository.GetByID. -/
def getByID (s : Store) (i : Nat) : Option User :=
  s.find? (fun u => u.id == i)

/-- UserRepository.UpdateTOTPSecret: sets totp_secret and updated_at on
every row with the given id. -/
def updateTOTPSecret (s : Store) (i : Nat) (secret : String) (now : Int) : Store :=
  s.map (fun u => if u.id == i then { u with totpSecret := secret, updatedAt := now } else u)

/-- UserRepository.Enable2FA: sets is_2fa_enabled = true and updated_at
on every row with the given id. -/
def enable2FA (s : Store) (i : Nat) (now : Int) : Store :=
  s.map (fun u => if u.id == i then { u with is2faEnabled := true, updatedAt := now } else u)

/-- AuthResponse (internal/domain/user.go). Absent token fields are
`none` (the Go code leaves them as "" with omitempty). -/
structure AuthResponse where
  token : Option Token := none
  tempToken : Option Token := none
  requires2FA : Bool := false
  user : Option User := none
  qrCodeURL : String := ""
  backupCodes : String := ""
deriving DecidableEq

/-- Result of totp.Generate (pquerna/otp): the raw shared secret and
the otpauth provisioning URL. -/
structure TOTPKey where
  secret : String
  url : String
deriving DecidableEq

/-- External dependencies of the auth core, as abstract functions:
bcrypt verify (CheckPassword plaintext hash), bcrypt hash, the HMAC,
totp.Generate (issuer → account name → key) and totp.Validate
(code → secret → Bool), plus the JWT manager configuration. -/
structure Env where
  check : String → String → Bool
  hash : String → String
  mac : MacFn
  genKey : String → String → TOTPKey
  totpValid : String → String → Bool
  jwt : JWTManager

/-- AuthUsecase.Register: reject when the email is already taken, hash
the password, create the user with is_active = true and
is_2fa_enabled = false, and return it with the password stripped. -/
def register (env : Env) (now : Int) (s : Store) (newID : Nat)
    (email password fullName : String) : Except String (User × Store) :=
  match getByEmail s email with
  | some _ => .error "user already exists"
  | none =>
    let user : User :=
      { id := newID, email := email, password := env.hash password
        fullName := fullName, isActive := true, is2faEnabled := false
        totpSecret := "", createdAt := now, updatedAt := now }
    .ok ({ user with password := "" }, s ++ [user])

/-- AuthUsecase.Login: lookup by email ("invalid credentials" when
absent), bcrypt check ("invalid credentials" on mismatch), then the
active gate ("user account is disabled"); with 2FA enabled return only
a temporary token with Requires2FA = true, otherwise a session token
plus the user with the password field cleared. -/
def login (env : Env) (now : Int) (s : Store)
    (email password : String) : Except String AuthResponse :=
  match getByEmail s email with
  | none => .error "invalid credentials"
  | some user =>
    if env.check password user.password then
      if user.isActive then
        if user.is2faEnabled then
          .ok { tempToken := some (generateTempToken env.mac env.jwt now user.id user.email)
                requires2FA := true }
        else
          .ok { token := some (generateToken env.mac env.jwt now user.id user.email user.is2faEnabled)
                requires2FA := false
                user := some { user with password := "" } }
      else .error "user account is disabled"
    else .error "invalid credentials"

/-- AuthUsecase.Setup2FA: lookup by id ("user not found" when absent),
generate a TOTP key with issuer "Telegram Bot API" and the user's email
as account name, persist the raw secret, and answer with the
provisioning URL as QRCodeURL and the raw secret as BackupCodes. -/
def setup2FA (env : Env) (now : Int) (s : Store)
    (userID : Nat) : Except String (AuthResponse × Store) :=
  match getByID s userID with
  | none => .error "user not found"
  | some user =>
    let key := env.genKey "Telegram Bot API" user.email
    .ok ({ qrCodeURL := key.url, backupCodes := key.secret },
         updateTOTPSecret s userID key.secret now)

/-- AuthUsecase.Verify2FA: validate the temporary token, load the user,
run totp.Validate on (code, stored secret), enable 2FA when it was not
yet enabled, and issue a full session token; the returned user has the
password and TOTP secret cleared. -/
def verify2FA (env : Env) (now : Int) (s : Store)
    (tempToken : Token) (code : String) : Except String (AuthResponse × Store) :=
  match validateTempToken env.mac env.jwt now tempToken with
  | .error _ => .error "invalid or expired temporary token"
  | .ok claims =>
    match getByID s claims.userID with
    | none => .error "user not found"
    | some user =>
      if env.totpValid code user.totpSecret then
        let user' := if user.is2faEnabled then user else { user with is2faEnabled := true }
        let s' := if user.is2faEnabled then s else enable2FA s user.id now
        .ok ({ token := some (generateToken env.mac env.jwt now user'.id user'.email user'.is2faEnabled)
               requires2FA := false
               user := some { user' with password := "", totpSecret := "" } }, s')
      else .error "invalid 2FA code"

/-- Outcome of an HTTP handler: a status code with a body, or a status
code with an error message (pkg/response). -/
inductive HTTPResult (α : Type) where
  | ok (status : Nat) (body : α)
  | err (status : Nat) (message : String)
deriving DecidableEq

/-- Outcome of the auth middleware gate: reject with 401 and a message,
or proceed with the locals it stores (user_id, user_email, is_2fa). -/
inductive GateResult where
  | unauthorized (message : String)
  | proceed (userID : Nat) (email : String) (is2FA : Bool)
deriving DecidableEq

/-- AuthMiddleware (internal/delivery/http/middleware), from the point
where the bearer token has been extracted from the Authorization
header: ValidateToken, reject any error as 401, then reject a token
whose temp_auth flag is set, else store the claims in the locals. -/
def authMiddleware (mac : MacFn) (j : JWTManager) (now : Int)
    (tok : Token) : GateResult :=
  match validateToken mac j now tok with
  | .error _ => .unauthorized "Invalid or expired token"
  | .ok claims =>
    if claims.tempAuth then
      .unauthorized "Temporary token cannot be used for this endpoint"
    else
      .proceed claims.userID claims.email claims.is2FA

/-- AuthHandler.Login: boundary validation of the request body, then
the use case; a use-case error becomes 401 with the error's message, a
success becomes 200. -/
def loginHandler (env : Env) (now : Int) (s : Store)
    (email password : String) : HTTPResult AuthResponse :=
  if email = "" then .err 400 "Email is required"
  else if password = "" then .err 400 "Password is required"
  else
    match login env now s email password with
    | .error e => .err 401 e
    | .ok r => .ok 200 r

/-- AuthHandler.Verify2FA: boundary validation of the code (empty, then
byte length ≠ 6 — Go's len on a string counts bytes), then the use case
with the temporary token placed in the locals by TempAuthMiddleware; a
use-case error becomes 401 with the error's message. -/
def verify2faHandler (env : Env) (now : Int) (s : Store)
    (tempToken : Token) (code : String) : HTTPResult (AuthResponse × Store) :=
  if code = "" then .err 400 "2FA code is required"
  else if code.utf8ByteSize ≠ 6 then .err 400 "2FA code must be 6 digits"
  else
    match verify2FA env now s tempToken code with
    | .error e => .err 401 e
    | .ok r => .ok 200 r

/-- The operations of the auth core (AuthUsecase), as one request type
for stating store-evolution properties. -/
inductive AuthOp where
  | register (newID : Nat) (email password fullName : String)
  | login (email password : String)
  | setup2FA (userID : Nat)
  | verify2FA (tempToken : Token) (code : String)

/-- The store after one auth-core operation. Login performs no
repository write (its definition does not even return a store); a
failed operation leaves the store as it was. -/
def stepStore (env : Env) (now : Int) (s : Store) : AuthOp → Store
  | .register newID email password fullName =>
    match register env now s newID email password fullName with
    | .ok (_, s') => s'
    | .error _ => s
  | .login _ _ => s
  | .setup2FA userID =>
    match setup2FA env now s userID with
    | .ok (_, s') => s'
    | .error _ => s
  | .verify2FA tempToken code =>
    match verify2FA env now s tempToken code with
    | .ok (_, s') => s'
    | .error _ => s

/-- The is_2fa_enabled column of the row with the given id (false when
no such row exists). -/
def stored2faFlag (s : Store) (i : Nat) : Bool :=
  match getByID s i with
  | some u => u.is2faEnabled
  | none => false

/-- The session token of a Verify2FA / Setup2FA result, when it
succeeded. -/
def issuedToken : Except String (AuthResponse × Store) → Option Token
  | .ok (r, _) => r.token
  | .error _ => none

/-- The user view of a Login result, when it succeeded. -/
def loginUser : Except String AuthResponse → Option User
  | .ok r => r.user
  | .error _ => none

/-- The HTTP status code of a handler outcome. -/
def resultStatus {α : Type} : HTTPResult α → Nat
  | .ok status _ => status
  | .err status _ => status

/-! Concrete instantiations of the external dependencies, used by the
closed evaluation theorems: an equality-test password checker, a MAC
determined by algorithm and key, a fixed generated TOTP key, and a TOTP
engine accepting exactly the code "123456" against the secret
"SECRET". -/

def jwt0 : JWTManager := { secretKey := "k", expiry := 86400 }

def env0 : Env :=
  { check := fun p h => p == h
    hash := fun p => p
    mac := fun alg key _ => alg ++ key
    genKey := fun iss acc => { secret := "RAWSECRET", url := "otpauth://totp/" ++ iss ++ ":" ++ acc }
    totpValid := fun c s => c == "123456" && s == "SECRET"
    jwt := jwt0 }

/-- An environment whose TOTP engine accepts every code. -/
def envYes : Env := { env0 with totpValid := fun _ _ => true }

/-- An environment whose TOTP engine rejects every code. -/
def envNo : Env := { env0 with totpValid := fun _ _ => false }

/-- A disabled (is_active = false) account with no TOTP secret. -/
def uDisabled : User :=
  { id := 1, email := "a@x.com", password := "pw", fullName := "A"
    isActive := false, is2faEnabled := false, totpSecret := ""
    createdAt := 0, updatedAt := 0 }

/-- A disabled account that has 2FA enabled with an enrolled secret. -/
def uInactive2fa : User :=
  { id := 2, email := "b@x.com", password := "pw", fullName := "B"
    isActive := false, is2faEnabled := true, totpSecret := "SECRET"
    createdAt := 0, updatedAt := 0 }

/-- An active account with 2FA not enabled but a secret left over from
an uncompleted setup. -/
def uLegacy : User :=
  { id := 3, email := "c@x.com", password := "pw", fullName := "C"
    isActive := true, is2faEnabled := false, totpSecret := "LEGACY"
    createdAt := 0, updatedAt := 0 }

/-- An active account with 2FA already enabled. -/
def uEnabled : User :=
  { id := 4, email := "d@x.com", password := "pw", fullName := "D"
    isActive := true, is2faEnabled := true, totpSecret := "SECRET"
    createdAt := 0, updatedAt := 0 }

/-- A temporary token for uDisabled, issued at time 0. -/
def tempTok1 : Token := generateTempToken env0.mac jwt0 0 1 "a@x.com"

/-- The row Register creates for a fresh registration under env0
(whose hash is the identity function). -/
def uRegStored : User :=
  { id := 9, email := "n@x.com", password := "pw123456", fullName := "N"
    isActive := true, is2faEnabled := false, totpSecret := ""
    createdAt := 0, updatedAt := 0 }

/-- The user view Register returns for that registration. -/
def uReg : User := { uRegStored with password := "" }

/-- The response Verify2FA returns for uInactive2fa with the correct
code under env0. -/
def verifyResp2 : AuthResponse :=
  { token := some (generateToken env0.mac jwt0 0 2 "b@x.com" true)
    requires2FA := false
    user := some { uInactive2fa with password := "", totpSecret := "" } }

/-- A temporary token for uInactive2fa, issued at time 0. -/
def tempTok2 : Token := generateTempToken env0.mac jwt0 0 2 "b@x.com"

deriving instance DecidableEq for Except

/-! Helper lemmas about the store operations. -/

/-- Mapping a row transform that preserves ids and never clears the
is_2fa_enabled flag preserves a set stored flag. -/
theorem stored2faFlag_map_mono {f : User → User}
    (hid : ∀ u, (f u).id = u.id)
    (hmono : ∀ u, u.is2faEnabled = true → (f u).is2faEnabled = true)
    (s : Store) (i : Nat) (h : stored2faFlag s i = true) :
    stored2faFlag (s.map f) i = true := by
  induction s with
  | nil => simp [stored2faFlag, getByID] at h
  | cons u t ih =>
    by_cases hcase : u.id = i
    · have h1 : (u.id == i) = true := by simpa using hcase
      have h2 : ((f u).id == i) = true := by simp [hid, hcase]
      have hu : u.is2faEnabled = true := by
        simpa [stored2faFlag, getByID, List.find?, h1] using h
      have := hmono u hu
      simp [stored2faFlag, getByID, List.find?, h2, this]
    · have h1 : (u.id == i) = false := by simpa using hcase
      have h2 : ((f u).id == i) = false := by simp [hid, hcase]
      have ht : stored2faFlag t i = true := by
        simpa [stored2faFlag, getByID, List.find?, h1] using h
      simpa [stored2faFlag, getByID, List.find?, h2] using ih ht

/-- Appending rows preserves a set stored flag (lookup returns the
first match). -/
theorem stored2faFlag_append_mono (s v : Store) (i : Nat)
    (h : stored2faFlag s i = true) : stored2faFlag (s ++ v) i = true := by
  unfold stored2faFlag getByID at h ⊢
  cases heq : s.find? (fun u => u.id == i) with
  | none => rw [heq] at h; simp at h
  | some u =>
    rw [heq] at h
    rw [List.find?_append, heq]
    simpa using h

/-- Enable2FA sets the stored flag of any present row with the given
id. -/
theorem stored2faFlag_enable2FA (s : Store) (i : Nat) (now : Int)
    (h : (getByID s i).isSome = true) :
    stored2faFlag (enable2FA s i now) i = true := by
  induction s with
  | nil => simp [getByID] at h
  | cons u t ih =>
    by_cases hcase : u.id = i
    · have h1 : (u.id == i) = true := by simpa using hcase
      simp [stored2faFlag, getByID, enable2FA, List.find?, h1]
    · have h1 : (u.id == i) = false := by simpa using hcase
      have ht : (getByID t i).isSome = true := by
        simpa [getByID, List.find?, h1] using h
      simpa [stored2faFlag, getByID, enable2FA, List.find?, h1] using ih ht

/-- UpdateTOTPSecret never changes the stored is_2fa_enabled flag. -/
theorem stored2faFlag_updateTOTPSecret (s : Store) (i' : Nat) (secret : String)
    (now : Int) (i : Nat) (h : stored2faFlag s i = true) :
    stored2faFlag (updateTOTPSecret s i' secret now) i = true := by
  unfold updateTOTPSecret
  refine stored2faFlag_map_mono ?_ ?_ s i h
  · intro u; by_cases hc : (u.id == i') = true <;> simp [hc]
  · intro u hu; by_cases hc : (u.id == i') = true <;> simp [hc, hu]

/-- Enable2FA never clears a stored is_2fa_enabled flag. -/
theorem stored2faFlag_enable2FA_mono (s : Store) (i' : Nat) (now : Int)
    (i : Nat) (h : stored2faFlag s i = true) :
    stored2faFlag (enable2FA s i' now) i = true := by
  unfold enable2FA
  refine stored2faFlag_map_mono ?_ ?_ s i h
  · intro u; by_cases hc : (u.id == i') = true <;> simp [hc]
  · intro u hu; by_cases hc : (u.id == i') = true <;> simp [hc, hu]

/-- A row found by id lookup carries that id. -/
theorem getByID_some_id {s : Store} {i : Nat} {u : User}
    (h : getByID s i = some u) : u.id = i := by
  have := List.find?_some h
  simpa using this

/-- ValidateToken only ever returns the claims of the token it was
given. -/
theorem validateToken_ok_claims {mac : MacFn} {j : JWTManager} {now : Int}
    {tok : Token} {c : Claims} (h : validateToken mac j now tok = .ok c) :
    c = tok.claims := by
  unfold validateToken at h
  split_ifs at h
  exact (Except.ok.inj h).symm

/-- ValidateTempToken only succeeds on tokens whose temp_auth flag is
set, and returns their claims. -/
theorem validateTempToken_ok {mac : MacFn} {j : JWTManager} {now : Int}
    {tok : Token} {c : Claims} (h : validateTempToken mac j now tok = .ok c) :
    c = tok.claims ∧ c.tempAuth = true := by
  unfold validateTempToken at h
  cases hv : validateToken mac j now tok with
  | error e => rw [hv] at h; simp at h
  | ok c' =>
    rw [hv] at h
    by_cases ht : c'.tempAuth = true
    · simp only [ht, if_true] at h
      obtain rfl : c' = c := by simpa using h
      exact ⟨validateToken_ok_claims hv, ht⟩
    · simp [ht] at h

/-- C3: a temporary token (issued with temp_auth = true) is always
rejected by the full-session gate (AuthMiddleware) with Unauthorized:
whatever the validation time, the gate never proceeds; and at a time
where its signature and expiry are valid (same MAC and secret,
nbf ≤ t < exp) the rejection is specifically the temporary-token
message. -/
theorem temp_token_rejected_by_full_session_gate (mac : MacFn) (j : JWTManager)
    (now now' : Int) (id : Nat) (email : String) :
    (∀ t, ∃ m, authMiddleware mac j t (generateTempToken mac j now id email) =
        .unauthorized m) ∧
    (now ≤ now' → now' < now + 15 * 60 →
      authMiddleware mac j now' (generateTempToken mac j now id email) =
        .unauthorized "Temporary token cannot be used for this endpoint") := by
  constructor
  · intro t
    cases hv : validateToken mac j t (generateTempToken mac j now id email) with
    | error e => exact ⟨"Invalid or expired token", by simp [authMiddleware, hv]⟩
    | ok c =>
      have hc : c.tempAuth = true := by
        rw [validateToken_ok_claims hv]; rfl
      exact ⟨"Temporary token cannot be used for this endpoint",
        by simp [authMiddleware, hv, hc]⟩
  · intro h1 h2
    have h2' : now' < now + 900 := by omega
    have hv : validateToken mac j now' (generateTempToken mac j now id email) =
        .ok (generateTempToken mac j now id email).claims := by
      simp [validateToken, generateTempToken, hmacAlgs, h1, h2']
    unfold authMiddleware
    rw [hv]
    simp [generateTempToken]

/-- C3 witness: the gate on a concrete valid temporary token. -/
theorem temp_token_rejected_by_full_session_gate_witness :
    authMiddleware env0.mac jwt0 0 (generateTempToken env0.mac jwt0 0 2 "b@x.com") =
      .unauthorized "Temporary token cannot be used for this endpoint" :=
  (temp_token_rejected_by_full_session_gate env0.mac jwt0 0 0 2 "b@x.com").2
    (by decide) (by decide)

/-- C4: the temporary token's lifetime is the fixed constant
15 minutes: its expiry is issuance time + 15 * 60 seconds, and the
token does not depend on the configured session expiry at all (two
managers differing only in the configured expiry issue identical
temporary tokens); the session token's expiry is issuance time + the
configured expiry. -/
theorem temp_token_ttl_fixed_session_ttl_configured (mac : MacFn) (key : String)
    (e1 e2 now : Int) (id : Nat) (email : String) (is2fa : Bool) :
    (generateTempToken mac { secretKey := key, expiry := e1 } now id email).claims.expiresAt
        = now + 15 * 60 ∧
    generateTempToken mac { secretKey := key, expiry := e1 } now id email
        = generateTempToken mac { secretKey := key, expiry := e2 } now id email ∧
    (generateToken mac { secretKey := key, expiry := e1 } now id email is2fa).claims.expiresAt
        = now + e1 :=
  ⟨rfl, rfl, rfl⟩

/-- C9: token round-trip — validating a freshly issued session token
with the same MAC and secret, at any time within its validity window,
succeeds and returns claims carrying the issued user id and email. -/
theorem token_round_trip (mac : MacFn) (key : String) (e now now' : Int)
    (id : Nat) (email : String)
    (h1 : now ≤ now') (h2 : now' < now + e) :
    ∃ c, validateToken mac { secretKey := key, expiry := e } now'
          (generateToken mac { secretKey := key, expiry := e } now id email false) = .ok c
        ∧ c.userID = id ∧ c.email = email := by
  refine ⟨(generateToken mac { secretKey := key, expiry := e } now id email false).claims,
    ?_, rfl, rfl⟩
  simp [validateToken, generateToken, hmacAlgs, h1, h2]

/-- C9 witness: round-trip of a concrete token validated at its
issuance time. -/
theorem token_round_trip_witness :
    ∃ c, validateToken env0.mac { secretKey := "k", expiry := 86400 } 0
          (generateToken env0.mac { secretKey := "k", expiry := 86400 } 0 7 "e@x.com" false) = .ok c
        ∧ c.userID = 7 ∧ c.email = "e@x.com" :=
  token_round_trip env0.mac "k" 86400 0 0 7 "e@x.com" (by decide) (by decide)

/-- C1 counterexample: a disabled account with a correct password fails
login with the message "user account is disabled", while an unknown
email fails with "invalid credentials" — both are 401s, but the
messages differ, so the disabled-account cause is distinguishable. -/
theorem login_disabled_message_counterexample :
    loginHandler env0 0 [uDisabled] "a@x.com" "pw" = .err 401 "user account is disabled" ∧
    loginHandler env0 0 [uDisabled] "ghost@x.com" "pw" = .err 401 "invalid credentials" ∧
    "user account is disabled" ≠ "invalid credentials" := by
  refine ⟨by decide, by decide, by decide⟩

/-- C1 amended: every failed login is a 401 at the boundary; unknown
email and wrong password share the exact message "invalid credentials",
but an inactive account with a correct password fails with the distinct
message "user account is disabled". -/
theorem login_failure_messages (env : Env) (now : Int) (s : Store)
    (email password : String) (hemail : email ≠ "") (hpw : password ≠ "") :
    (getByEmail s email = none →
      loginHandler env now s email password = .err 401 "invalid credentials") ∧
    (∀ u, getByEmail s email = some u → env.check password u.password = false →
      loginHandler env now s email password = .err 401 "invalid credentials") ∧
    (∀ u, getByEmail s email = some u → env.check password u.password = true →
      u.isActive = false →
      loginHandler env now s email password = .err 401 "user account is disabled") := by
  refine ⟨fun h => ?_, fun u hu hc => ?_, fun u hu hc ha => ?_⟩ <;>
    simp [loginHandler, login, hemail, hpw, *]

/-- C1 amended witness: the three causes evaluated on a concrete
store. -/
theorem login_failure_messages_witness :
    loginHandler env0 0 [uDisabled] "nobody@x.com" "pw" = .err 401 "invalid credentials" ∧
    loginHandler env0 0 [uDisabled] "a@x.com" "wrong" = .err 401 "invalid credentials" ∧
    loginHandler env0 0 [uDisabled] "a@x.com" "pw" = .err 401 "user account is disabled" :=
  ⟨(login_failure_messages env0 0 [uDisabled] "nobody@x.com" "pw"
      (by decide) (by decide)).1 (by decide),
   (login_failure_messages env0 0 [uDisabled] "a@x.com" "wrong"
      (by decide) (by decide)).2.1 uDisabled (by decide) (by decide),
   (login_failure_messages env0 0 [uDisabled] "a@x.com" "pw"
      (by decide) (by decide)).2.2 uDisabled (by decide) (by decide) (by decide)⟩

/-- C2 counterexample: Verify2FA issues a full session token to an
account with is_active = false, given a valid temporary token and the
correct TOTP code — the login flow does hand a session token to an
inactive account. -/
theorem verify2fa_inactive_issues_token_counterexample :
    uInactive2fa.isActive = false ∧
    (issuedToken (verify2FA env0 0 [uInactive2fa] tempTok2 "123456")).isSome = true := by
  refine ⟨rfl, by decide⟩

/-- C2 amended: Login never returns a token of any kind for an
inactive account (it always fails); but Verify2FA performs no
is_active check at all — for any account, active or not, a valid
temporary token plus an engine-accepted code yields a full session
token. -/
theorem inactive_account_token_issuance :
    (∀ (env : Env) (now : Int) (s : Store) (email password : String) (u : User),
      getByEmail s email = some u → u.isActive = false →
      ∃ e, login env now s email password = .error e) ∧
    (∀ (env : Env) (now : Int) (s : Store) (tok : Token) (code : String)
        (claims : Claims) (user : User),
      validateTempToken env.mac env.jwt now tok = .ok claims →
      getByID s claims.userID = some user →
      env.totpValid code user.totpSecret = true →
      ∃ r s', verify2FA env now s tok code = .ok (r, s') ∧ r.token.isSome = true) := by
  constructor
  · intro env now s email password u hu ha
    by_cases hc : env.check password u.password = true
    · exact ⟨"user account is disabled", by simp [login, hu, hc, ha]⟩
    · exact ⟨"invalid credentials", by simp [login, hu, hc]⟩
  · intro env now s tok code claims user hv hu hc
    by_cases h2 : user.is2faEnabled = true
    · have hres : verify2FA env now s tok code =
          .ok ({ token := some (generateToken env.mac env.jwt now user.id user.email true)
                 requires2FA := false
                 user := some { user with password := "", totpSecret := "", is2faEnabled := true } },
               s) := by
        simp [verify2FA, hv, hu, hc, h2]
      exact ⟨_, _, hres, rfl⟩
    · have hres : verify2FA env now s tok code =
          .ok ({ token := some (generateToken env.mac env.jwt now user.id user.email true)
                 requires2FA := false
                 user := some { user with password := "", totpSecret := "", is2faEnabled := true } },
               enable2FA s user.id now) := by
        simp [verify2FA, hv, hu, hc, h2]
      exact ⟨_, _, hres, rfl⟩

/-- C2 amended witness: both halves evaluated concretely — the disabled
account cannot log in, and the inactive account with a valid temporary
token does receive a session token from Verify2FA. -/
theorem inactive_account_token_issuance_witness :
    (∃ e, login env0 0 [uDisabled] "a@x.com" "pw" = .error e) ∧
    (∃ r s', verify2FA env0 0 [uInactive2fa] tempTok2 "123456" = .ok (r, s') ∧
      r.token.isSome = true) :=
  ⟨inactive_account_token_issuance.1 env0 0 [uDisabled] "a@x.com" "pw" uDisabled
      (by decide) (by decide),
   inactive_account_token_issuance.2 env0 0 [uInactive2fa] tempTok2 "123456"
      tempTok2.claims uInactive2fa (by decide) (by decide) (by decide)⟩

/-- C7 counterexample: a successful password-only login on an account
that still carries a TOTP secret from an uncompleted setup returns the
user with the password cleared but the TOTP secret still present in
the returned view. -/
theorem login_totp_secret_not_stripped_counterexample :
    ((loginUser (login env0 0 [uLegacy] "c@x.com" "pw")).map User.password = some "" ∧
     (loginUser (login env0 0 [uLegacy] "c@x.com" "pw")).map User.totpSecret = some "LEGACY") ∧
    uLegacy.is2faEnabled = false ∧ "LEGACY" ≠ "" := by
  refine ⟨⟨by decide, by decide⟩, rfl, by decide⟩

/-- C7 amended: a successful login with 2FA disabled returns a session
token, Requires2FA = false, and the account view with the password
cleared — but the TOTP secret field is left untouched (only the JSON
serialization tag hides it); Login clears only the password. -/
theorem login_no2fa_success_shape (env : Env) (now : Int) (s : Store)
    (email password : String) (u : User)
    (hu : getByEmail s email = some u) (hc : env.check password u.password = true)
    (ha : u.isActive = true) (h2 : u.is2faEnabled = false) :
    login env now s email password = .ok
      { token := some (generateToken env.mac env.jwt now u.id u.email u.is2faEnabled)
        requires2FA := false
        user := some { u with password := "" } } := by
  simp [login, hu, hc, ha, h2]

/-- C7 amended witness: the concrete successful login. -/
theorem login_no2fa_success_shape_witness :
    login env0 0 [uLegacy] "c@x.com" "pw" = .ok
      { token := some (generateToken env0.mac env0.jwt 0 uLegacy.id uLegacy.email uLegacy.is2faEnabled)
        requires2FA := false
        user := some { uLegacy with password := "" } } :=
  login_no2fa_success_shape env0 0 [uLegacy] "c@x.com" "pw" uLegacy
    (by decide) (by decide) (by decide) (by decide)

/-- C6: with a valid temporary token and an account whose totp_secret
is absent (the empty string, as the repository scans a NULL column),
Verify2FA fails with exactly the invalid-code error for any code and
never any other outcome — given the engine contract that an empty
secret validates no code (the TOTP engine, github.com/pquerna/otp, is
external to this repository; the spec fixes its contract). No
null-dereference fault is possible: the absent secret is a total
string value throughout. -/
theorem missing_totp_secret_invalid_code (env : Env) (now : Int) (s : Store)
    (tok : Token) (code : String) (claims : Claims) (user : User)
    (hclaims : validateTempToken env.mac env.jwt now tok = .ok claims)
    (huser : getByID s claims.userID = some user)
    (hsecret : user.totpSecret = "")
    (hengine : env.totpValid code "" = false) :
    verify2FA env now s tok code = .error "invalid 2FA code" := by
  have hc : env.totpValid code user.totpSecret = false := by
    rw [hsecret]; exact hengine
  simp [verify2FA, hclaims, huser, hc]

/-- C6 witness: a concrete account with an empty secret, a valid
temporary token, and a concrete engine. -/
theorem missing_totp_secret_invalid_code_witness :
    verify2FA env0 0 [uDisabled] tempTok1 "123456" = .error "invalid 2FA code" :=
  missing_totp_secret_invalid_code env0 0 [uDisabled] tempTok1 "123456"
    tempTok1.claims uDisabled (by decide) (by decide) (by decide) (by decide)

/-- C10: a successful Setup2FA returns the freshly generated raw TOTP
secret itself in the BackupCodes field, alongside the provisioning URL
in QRCodeURL — the secret leaves the server in both forms. -/
theorem setup2fa_exposes_secret_in_backup_codes (env : Env) (now : Int)
    (s : Store) (userID : Nat) (user : User)
    (hu : getByID s userID = some user) :
    setup2FA env now s userID = .ok
      ({ qrCodeURL := (env.genKey "Telegram Bot API" user.email).url
         backupCodes := (env.genKey "Telegram Bot API" user.email).secret },
       updateTOTPSecret s userID (env.genKey "Telegram Bot API" user.email).secret now) := by
  simp [setup2FA, hu]

/-- C10 witness: Setup2FA evaluated on a concrete store. -/
theorem setup2fa_exposes_secret_in_backup_codes_witness :
    setup2FA env0 0 [uLegacy] 3 = .ok
      ({ qrCodeURL := (env0.genKey "Telegram Bot API" uLegacy.email).url
         backupCodes := (env0.genKey "Telegram Bot API" uLegacy.email).secret },
       updateTOTPSecret [uLegacy] 3 (env0.genKey "Telegram Bot API" uLegacy.email).secret 0) :=
  setup2fa_exposes_secret_in_backup_codes env0 0 [uLegacy] 3 uLegacy (by decide)

/-- C8 counterexample: the code "abcdef" has 6 bytes but is not 6 ASCII
digits, yet the Verify2FA boundary does not reject it — the outcome
depends on the TOTP engine (an accept-all engine yields 200, a
reject-all engine yields the use case's 401 invalid-code error), so
the code does reach validate_code. -/
theorem verify2fa_nondigit_code_reaches_engine_counterexample :
    resultStatus (verify2faHandler envYes 0 [uInactive2fa] tempTok2 "abcdef") = 200 ∧
    verify2faHandler envNo 0 [uInactive2fa] tempTok2 "abcdef" = .err 401 "invalid 2FA code" ∧
    verify2faHandler envYes 0 [uInactive2fa] tempTok2 "abcdef" ≠
      verify2faHandler envNo 0 [uInactive2fa] tempTok2 "abcdef" := by
  refine ⟨by decide, by decide, by decide⟩

/-- C8 amended: the boundary check on the 2FA code is emptiness and
byte length only — an empty code and a code whose byte length is not 6
are rejected with 400 before the use case runs, while every 6-byte
code (digits or not) is passed through to the use case and hence to
the TOTP engine. -/
theorem verify2fa_boundary_checks_length_only (env : Env) (now : Int)
    (s : Store) (tok : Token) (code : String) :
    (code = "" → verify2faHandler env now s tok code = .err 400 "2FA code is required") ∧
    (code ≠ "" → code.utf8ByteSize ≠ 6 →
      verify2faHandler env now s tok code = .err 400 "2FA code must be 6 digits") ∧
    (code.utf8ByteSize = 6 →
      verify2faHandler env now s tok code =
        match verify2FA env now s tok code with
        | .error e => .err 401 e
        | .ok r => .ok 200 r) := by
  refine ⟨fun h => by simp [verify2faHandler, h],
    fun h h6 => by simp [verify2faHandler, h, h6],
    fun h6 => ?_⟩
  have hne : code ≠ "" := by
    intro h
    rw [h] at h6
    exact absurd h6 (by decide)
  simp [verify2faHandler, hne, h6]

/-- C8 amended witness: empty, 5-byte and 6-byte codes evaluated
concretely. -/
theorem verify2fa_boundary_checks_length_only_witness :
    verify2faHandler env0 0 [uInactive2fa] tempTok2 "" = .err 400 "2FA code is required" ∧
    verify2faHandler env0 0 [uInactive2fa] tempTok2 "12345" = .err 400 "2FA code must be 6 digits" ∧
    verify2faHandler env0 0 [uInactive2fa] tempTok2 "123456" =
      (match verify2FA env0 0 [uInactive2fa] tempTok2 "123456" with
        | .error e => .err 401 e
        | .ok r => .ok 200 r) :=
  ⟨(verify2fa_boundary_checks_length_only env0 0 [uInactive2fa] tempTok2 "").1 rfl,
   (verify2fa_boundary_checks_length_only env0 0 [uInactive2fa] tempTok2 "12345").2.1
      (by decide) (by decide),
   (verify2fa_boundary_checks_length_only env0 0 [uInactive2fa] tempTok2 "123456").2.2
      (by decide)⟩

/-- C5: monotonicity of is_2fa_enabled across the auth core.
(1) No auth-core operation ever clears a stored set flag;
(2) Register creates the account with the flag false;
(3) a successful Verify2FA leaves the flag set in the store for the
returned account (the first success flips it false → true);
(4) a successful Verify2FA on an already-enabled account leaves the
store untouched — the flip happens exactly once, on the first
success. -/
theorem is2fa_flag_monotonic :
    (∀ (env : Env) (now : Int) (s : Store) (op : AuthOp) (i : Nat),
      stored2faFlag s i = true → stored2faFlag (stepStore env now s op) i = true) ∧
    (∀ (env : Env) (now : Int) (s : Store) (newID : Nat)
        (email password fullName : String) (u : User) (s' : Store),
      register env now s newID email password fullName = .ok (u, s') →
      u.is2faEnabled = false) ∧
    (∀ (env : Env) (now : Int) (s : Store) (tok : Token) (code : String)
        (r : AuthResponse) (s' : Store),
      verify2FA env now s tok code = .ok (r, s') →
      ∀ u, r.user = some u → stored2faFlag s' u.id = true) ∧
    (∀ (env : Env) (now : Int) (s : Store) (tok : Token) (code : String)
        (claims : Claims) (user : User),
      validateTempToken env.mac env.jwt now tok = .ok claims →
      getByID s claims.userID = some user → user.is2faEnabled = true →
      ∀ (r : AuthResponse) (s' : Store),
        verify2FA env now s tok code = .ok (r, s') → s' = s) := by
  refine ⟨?mono, ?reg, ?flip, ?once⟩
  case mono =>
    intro env now s op i h
    cases op with
    | register newID email password fullName =>
      simp only [stepStore]
      cases hreg : register env now s newID email password fullName with
      | error e => exact h
      | ok p =>
        obtain ⟨u, s'⟩ := p
        unfold register at hreg
        cases hge : getByEmail s email with
        | some v => rw [hge] at hreg; exact absurd hreg (by simp)
        | none =>
          rw [hge] at hreg
          cases Except.ok.inj hreg
          exact stored2faFlag_append_mono s _ i h
    | login email password => exact h
    | setup2FA userID =>
      simp only [stepStore]
      cases hs2 : setup2FA env now s userID with
      | error e => exact h
      | ok p =>
        obtain ⟨r, s'⟩ := p
        unfold setup2FA at hs2
        cases hid : getByID s userID with
        | none => rw [hid] at hs2; exact absurd hs2 (by simp)
        | some user =>
          rw [hid] at hs2
          cases Except.ok.inj hs2
          exact stored2faFlag_updateTOTPSecret s userID _ now i h
    | verify2FA tok code =>
      simp only [stepStore]
      cases hv : verify2FA env now s tok code with
      | error e => exact h
      | ok p =>
        obtain ⟨r, s'⟩ := p
        unfold verify2FA at hv
        cases hvt : validateTempToken env.mac env.jwt now tok with
        | error e => rw [hvt] at hv; exact absurd hv (by simp)
        | ok claims =>
          rw [hvt] at hv
          simp only [] at hv
          cases hid : getByID s claims.userID with
          | none => rw [hid] at hv; exact absurd hv (by simp)
          | some user =>
            rw [hid] at hv
            simp only [] at hv
            by_cases hc : env.totpValid code user.totpSecret = true
            · by_cases h2 : user.is2faEnabled = true
              · simp only [hc, if_true, h2] at hv
                cases Except.ok.inj hv
                exact h
              · simp only [hc, if_true, h2, if_false] at hv
                cases Except.ok.inj hv
                exact stored2faFlag_enable2FA_mono s user.id now i h
            · simp only [hc, if_false] at hv
              exact absurd hv (by simp)
  case reg =>
    intro env now s newID email password fullName u s' hreg
    unfold register at hreg
    cases hge : getByEmail s email with
    | some v => rw [hge] at hreg; exact absurd hreg (by simp)
    | none =>
      rw [hge] at hreg
      cases Except.ok.inj hreg
      rfl
  case flip =>
    intro env now s tok code r s' hv u hu
    unfold verify2FA at hv
    cases hvt : validateTempToken env.mac env.jwt now tok with
    | error e => rw [hvt] at hv; exact absurd hv (by simp)
    | ok claims =>
      rw [hvt] at hv
      simp only [] at hv
      cases hid : getByID s claims.userID with
      | none => rw [hid] at hv; exact absurd hv (by simp)
      | some user =>
        rw [hid] at hv
        simp only [] at hv
        have huid : user.id = claims.userID := getByID_some_id hid
        by_cases hc : env.totpValid code user.totpSecret = true
        · by_cases h2 : user.is2faEnabled = true
          · simp only [hc, if_true, h2] at hv
            cases Except.ok.inj hv
            obtain rfl : { user with password := "", totpSecret := "", is2faEnabled := true } = u :=
              Option.some.inj hu
            simpa [stored2faFlag, huid, hid] using h2
          · simp only [hc, if_true, h2, if_false] at hv
            cases Except.ok.inj hv
            obtain rfl : { user with is2faEnabled := true, password := "", totpSecret := "" } = u :=
              Option.some.inj hu
            exact stored2faFlag_enable2FA s user.id now (by simp [huid, hid])
        · simp only [hc, if_false] at hv
          exact absurd hv (by simp)
  case once =>
    intro env now s tok code claims user hvt hid h2 r s' hv
    unfold verify2FA at hv
    rw [hvt] at hv
    simp only [] at hv
    rw [hid] at hv
    simp only [] at hv
    by_cases hc : env.totpValid code user.totpSecret = true
    · simp only [hc, if_true, h2] at hv
      cases Except.ok.inj hv
      rfl
    · simp only [hc, if_false] at hv
      exact absurd hv (by simp)

/-- C5 witness: each conjunct applied at a concrete input —
Setup2FA on a store with an enabled account preserves the flag;
a concrete Register returns the flag false; the concrete Verify2FA of
uInactive2fa leaves the flag set; and that same Verify2FA on the
already-enabled account leaves the store unchanged. -/
theorem is2fa_flag_monotonic_witness :
    stored2faFlag (stepStore env0 0 [uEnabled] (AuthOp.setup2FA 4)) 4 = true ∧
    uReg.is2faEnabled = false ∧
    stored2faFlag [uInactive2fa] 2 = true ∧
    [uInactive2fa] = [uInactive2fa] :=
  ⟨is2fa_flag_monotonic.1 env0 0 [uEnabled] (AuthOp.setup2FA 4) 4 (by decide),
   is2fa_flag_monotonic.2.1 env0 0 [] 9 "n@x.com" "pw123456" "N" uReg [uRegStored]
      (by decide),
   is2fa_flag_monotonic.2.2.1 env0 0 [uInactive2fa] tempTok2 "123456" verifyResp2
      [uInactive2fa] (by decide) { uInactive2fa with password := "", totpSecret := "" }
      (by decide),
   is2fa_flag_monotonic.2.2.2 env0 0 [uInactive2fa] tempTok2 "123456" tempTok2.claims
      uInactive2fa (by decide) (by decide) (by decide) verifyResp2 [uInactive2fa]
      (by decide)⟩

end ZomatoBot
